import Mathlib

/-!
A shallow embedding of `src/validators/cgroup_validator.go` (package
`system`): the `CgroupsValidator` that reads the kernel's cgroup status
source (`/proc/cgroups`), extracts the enabled subsystem names, and checks
them against a declared specification of required and optional names.

The Go file's side effects are made explicit:

* the status file becomes a `StatusSource` value describing what `os.Open`
  and the `bufio.Scanner` deliver;
* calls to `Reporter.Report` become values in an event list that the
  checker returns alongside its results;
* a Go runtime fault (index out of range) becomes the `GoResult.panic`
  constructor, so the embedding can state when the code does and does not
  fault.

Strings are Lean `String`s; the byte-level operations of the Go code are
modelled at the character level, which is faithful for the comparisons the
code performs (`text[0] != '#'` and whitespace splitting) on the inputs in
question, since the bytes compared against are ASCII.
-/

namespace CgroupValidator

/-- The three severity constants `good`, `warn`, `bad` of the reporting
sink. Modelled from the spec: the constants are declared elsewhere in the
repository; the spec describes them as the enum `{good, warn, bad}`. -/
inductive Severity where
  | good
  | warn
  | bad
deriving DecidableEq, Repr

/-- One call `Reporter.Report(itemKey, status, severity)`. Modelled from the
spec: `Reporter` is an external collaborator with the single operation
`Report(itemKey string, message string, severity Severity)`; the validator
only ever appends such events, so a run is embedded as the list of events
it emits. -/
structure ReportEvent where
  itemKey : String
  status : String
  severity : Severity
deriving DecidableEq, Repr

/-- The two declared name lists of the cgroup specification. Modelled from
the spec: `CgroupSpec` carries the sets `Required` and `Optional` of
subsystem-name strings. -/
structure CgroupSpec where
  required : List String
  optional : List String
deriving DecidableEq, Repr

/-- The part of `SysSpec` this validator consumes. Modelled from the spec:
`SysSpec` is the externally supplied specification object; `Validate` only
reads its `CgroupSpec` field. -/
structure SysSpec where
  cgroupSpec : CgroupSpec
deriving DecidableEq, Repr

/-- The observable behaviour of `os.Open("/proc/cgroups")` followed by a
`bufio.Scanner` scan, made explicit so the reader is a function of it.

* `openErr`: when `some e`, `os.Open` fails with error `e`.
* `tokens`: the lines the scanner delivers, in order; each line is paired
  with the value `s.Err()` reports at that iteration of the loop. A non-nil
  value here corresponds to the underlying reader returning data together
  with an error, which `bufio.Scanner` records while still delivering the
  buffered tokens.
* `tailErr`: a read error that stops the scan after the last delivered
  line. `s.Scan()` then returns `false`, the loop exits, and only a call to
  `s.Err()` after the loop would reveal the error. -/
structure StatusSource where
  openErr : Option String
  tokens : List (String × Option String)
  tailErr : Option String
deriving DecidableEq, Repr

/-- The result of running a Go function that may fault at runtime:
either a normal return value or a runtime panic. -/
inductive GoResult (α : Type) where
  | ok (val : α)
  | panic
deriving DecidableEq, Repr

/-- Go `strings.Fields`, accumulator form: split around maximal runs of
whitespace, producing no empty fields. `cur` holds the characters of the
field being built, in reverse. Restricted to the ASCII whitespace class of
`Char.isWhitespace`, which covers the separators occurring in the status
source. -/
def fieldsAux (cur : List Char) : List Char → List String
  | [] => if cur.isEmpty then [] else [⟨cur.reverse⟩]
  | c :: cs =>
    if c.isWhitespace then
      if cur.isEmpty then fieldsAux [] cs
      else ⟨cur.reverse⟩ :: fieldsAux [] cs
    else fieldsAux (c :: cur) cs

/-- Go `strings.Fields(text)`. -/
def fields (text : String) : List String :=
  fieldsAux [] text.data

/-- Go `strings.ToUpper`, character by character; faithful for the ASCII
subsystem names the code handles. -/
def stringsToUpper (s : String) : String :=
  ⟨s.data.map Char.toUpper⟩

/-- The constant `cgroupsConfigPrefix = "CGROUPS_"` of the source file
(renamed here for Lean). -/
def cgroupsConfigKey : String := "CGROUPS_"

/-- The body of the scan loop of `getCgroupSubsystems` for one delivered
line `text`: the Go code evaluates `text[0] != '#'` before any length
check, so on an empty line the index is out of range and the program
faults (`GoResult.panic`). Otherwise the line is split into fields and
`parts[0]` is appended exactly when `len(parts) >= 4 && parts[3] != "0"`. -/
def scanText (text : String) (subsystems : List String) : GoResult (List String) :=
  match text.data with
  | [] => GoResult.panic
  | c :: _ =>
    if c = '#' then GoResult.ok subsystems
    else
      match fields text with
      | p0 :: _ :: _ :: p3 :: _ =>
        if p3 ≠ "0" then GoResult.ok (subsystems ++ [p0]) else GoResult.ok subsystems
      | _ => GoResult.ok subsystems

/-- The scanner loop of `getCgroupSubsystems`: while `s.Scan()` delivers a
line, the code first consults `s.Err()` and returns a non-nil error, and
otherwise processes the line with `scanText`. When the loop ends the
collected list is returned with a nil error; the code never consults
`s.Err()` after the loop. -/
def scanLoop : List (String × Option String) → List String →
    GoResult (Except String (List String))
  | [], subsystems => GoResult.ok (Except.ok subsystems)
  | (text, errNow) :: rest, subsystems =>
    match errNow with
    | some e => GoResult.ok (Except.error e)
    | none =>
      match scanText text subsystems with
      | GoResult.panic => GoResult.panic
      | GoResult.ok subsystems2 => scanLoop rest subsystems2

/-- Go `getCgroupSubsystems`: open the status source (propagating an open
error), then scan it line by line collecting the retained first fields.
Note that `src.tailErr` is never consulted, mirroring the source, which
does not check `s.Err()` once the loop has exited. -/
def getCgroupSubsystems (src : StatusSource) : GoResult (Except String (List String)) :=
  match src.openErr with
  | some e => GoResult.ok (Except.error e)
  | none => scanLoop src.tokens []

/-- Go `validateCgroupSubsystems`: walk the declared names in order; look
each one up in the enabled list with `==` (exact string equality); emit one
report event per name (`"enabled"`/good when found, `"missing"`/bad when a
required name is absent, `"missing"`/warn when an optional name is absent);
and accumulate the absent names in declaration order. Returns the missing
list together with the emitted events. -/
def validateCgroupSubsystems (cgroups subsystems : List String) (required : Bool) :
    List String × List ReportEvent :=
  match cgroups with
  | [] => ([], [])
  | cgroup :: rest =>
    let found := subsystems.contains cgroup
    let item := cgroupsConfigKey ++ stringsToUpper cgroup
    let ev : ReportEvent :=
      if found then ⟨item, "enabled", Severity.good⟩
      else if required then ⟨item, "missing", Severity.bad⟩
      else ⟨item, "missing", Severity.warn⟩
    let tail := validateCgroupSubsystems rest subsystems required
    (if found then tail.1 else cgroup :: tail.1, ev :: tail.2)

/-- Go `Validate`: fetch the enabled subsystems — a reader error is wrapped
as "failed to get cgroup subsystems: ..." and returned as the single error
with nil warnings — then run the required pass and the optional pass, and
aggregate each non-empty missing list into a single space-joined message.
Go's nil slices are embedded as `[]`. The returned triple is
`(warns, errs, events)` with the events of the required pass first. -/
def Validate (spec : SysSpec) (src : StatusSource) :
    GoResult (List String × List String × List ReportEvent) :=
  match getCgroupSubsystems src with
  | GoResult.panic => GoResult.panic
  | GoResult.ok (Except.error e) =>
    GoResult.ok ([], ["failed to get cgroup subsystems: " ++ e], [])
  | GoResult.ok (Except.ok subsystems) =>
    let requiredRun := validateCgroupSubsystems spec.cgroupSpec.required subsystems true
    let errs : List String :=
      if requiredRun.1.length ≠ 0 then
        ["missing required cgroups: " ++ String.intercalate (" ") requiredRun.1]
      else []
    let optionalRun := validateCgroupSubsystems spec.cgroupSpec.optional subsystems false
    let warns : List String :=
      if optionalRun.1.length ≠ 0 then
        ["missing optional cgroups: " ++ String.intercalate (" ") optionalRun.1]
      else []
    GoResult.ok (warns, errs, requiredRun.2 ++ optionalRun.2)

/-- The set of names the specification says the reader returns, written
from the claim's words for comparison with `getCgroupSubsystems`: the first
fields of the non-comment lines that split into at least 4 whitespace
fields and whose 4th field is not the literal string "0". -/
def claimedSubsystems (lines : List String) : List String :=
  lines.filterMap (fun text =>
    match text.data with
    | [] => none
    | c :: _ =>
      if c = '#' then none
      else
        match fields text with
        | p0 :: _ :: _ :: p3 :: _ => if p3 ≠ "0" then some p0 else none
        | _ => none)

/-- The single report event the checker emits for one declared name, as a
function of the enabled list and the tier. -/
def eventFor (subsystems : List String) (required : Bool) (cgroup : String) : ReportEvent :=
  if subsystems.contains cgroup then
    ⟨cgroupsConfigKey ++ stringsToUpper cgroup, "enabled", Severity.good⟩
  else if required then
    ⟨cgroupsConfigKey ++ stringsToUpper cgroup, "missing", Severity.bad⟩
  else
    ⟨cgroupsConfigKey ++ stringsToUpper cgroup, "missing", Severity.warn⟩

deriving instance DecidableEq for Except

/-- A status source that reads cleanly: it opens, every line is delivered
with a nil `s.Err()`, and no trailing read error occurs. -/
def cleanSource (lines : List String) : StatusSource :=
  ⟨none, lines.map (fun l => (l, none)), none⟩

/-- The contribution of one scanned line to the claimed enabled set: the
first field when the line is a retained record, nothing otherwise. -/
def claimedField (text : String) : Option String :=
  match text.data with
  | [] => none
  | c :: _ =>
    if c = '#' then none
    else
      match fields text with
      | p0 :: _ :: _ :: p3 :: _ => if p3 ≠ "0" then some p0 else none
      | _ => none

/-- The status-source lines of the spec's Scenario A: a header comment, an
enabled cpu record, a disabled memory record, an enabled pids record. -/
def linesA : List String :=
  ["#subsys_name hierarchy num_cgroups enabled", "cpu 1 1 1", "memory 2 1 0", "pids 3 1 1"]

/-- The specification of the spec's Scenario A. -/
def specA : SysSpec := ⟨⟨["cpu", "memory"], ["pids", "blkio"]⟩⟩

theorem claimedSubsystems_eq_filterMap (lines : List String) :
    claimedSubsystems lines = lines.filterMap claimedField := rfl

theorem scanText_eq (text : String) (subs : List String) (h : text.data ≠ []) :
    scanText text subs = GoResult.ok (subs ++ (claimedField text).toList) := by
  unfold scanText claimedField
  rcases hld : text.data with _ | ⟨c, cs⟩
  · exact absurd hld h
  · by_cases hc : c = '#'
    · simp [hc]
    · rcases hf : fields text with _ | ⟨p0, _ | ⟨p1, _ | ⟨p2, _ | ⟨p3, ps⟩⟩⟩⟩
      · simp [hc, hf]
      · simp [hc, hf]
      · simp [hc, hf]
      · simp [hc, hf]
      · simp only [hc, hf]
        by_cases h0 : p3 = "0"
        · simp [h0]
        · simp [h0]

theorem scanLoop_clean (lines : List String) (acc : List String)
    (h : ∀ l ∈ lines, l ≠ "") :
    scanLoop (lines.map (fun l => (l, none))) acc =
      GoResult.ok (Except.ok (acc ++ claimedSubsystems lines)) := by
  induction lines generalizing acc with
  | nil => simp [scanLoop, claimedSubsystems]
  | cons l rest ih =>
    have hl : l ≠ "" := h l (List.mem_cons_self l rest)
    have hrest : ∀ x ∈ rest, x ≠ "" := fun x hx => h x (List.mem_cons_of_mem l hx)
    have hdata : l.data ≠ [] := by
      intro hd
      apply hl
      cases l
      simp_all
    simp only [List.map_cons, scanLoop, scanText_eq l acc hdata, ih _ hrest,
      claimedSubsystems_eq_filterMap, List.filterMap_cons]
    cases hcf : claimedField l <;> simp [hcf]

theorem validateCgroupSubsystems_missing (cgroups subsystems : List String) (required : Bool) :
    (validateCgroupSubsystems cgroups subsystems required).1 =
      cgroups.filter (fun c => !subsystems.contains c) := by
  induction cgroups with
  | nil => rfl
  | cons c rest ih =>
    simp only [validateCgroupSubsystems, List.filter_cons]
    cases h : subsystems.contains c <;> simp [h, ih]

theorem validateCgroupSubsystems_events (cgroups subsystems : List String) (required : Bool) :
    (validateCgroupSubsystems cgroups subsystems required).2 =
      cgroups.map (eventFor subsystems required) := by
  induction cgroups with
  | nil => rfl
  | cons c rest ih =>
    simp only [validateCgroupSubsystems, List.map_cons, eventFor]
    cases h : subsystems.contains c <;> simp [h, ih]

/-- Claim C1, as stated over every status-source content, is false on the
code: on a content whose only line is empty the reader returns no set at
all — `text[0]` is evaluated before any length check and the program
faults. -/
theorem C1_counterexample :
    getCgroupSubsystems (cleanSource [""]) = GoResult.panic := by decide

/-- Claim C1 (amended to contents with no empty line): for every
status-source content all of whose lines are non-empty, the reader returns
exactly the first fields of the non-comment lines that split into at least
4 whitespace-delimited fields and whose 4th field is not the literal
string "0"; comment lines (starting with '#') and lines with fewer than 4
fields contribute nothing, and the comparison against "0" is textual. -/
theorem C1_reader_enabled_set (lines : List String) (h : ∀ l ∈ lines, l ≠ "") :
    getCgroupSubsystems (cleanSource lines) =
      GoResult.ok (Except.ok (claimedSubsystems lines)) := by
  have h2 := scanLoop_clean lines [] h
  simpa [getCgroupSubsystems, cleanSource] using h2

/-- Concrete run of `C1_reader_enabled_set` on the Scenario A lines, with
the claimed set evaluated. -/
theorem C1_reader_enabled_set_witness :
    (∀ l ∈ linesA, l ≠ "") ∧
    getCgroupSubsystems (cleanSource linesA) =
      GoResult.ok (Except.ok (claimedSubsystems linesA)) ∧
    claimedSubsystems linesA = ["cpu", "pids"] :=
  ⟨by decide, C1_reader_enabled_set linesA (by decide), by decide⟩

/-- Claim C2: when the reader succeeds, a non-empty missing-required list
yields exactly one error, "missing required cgroups: " followed by the
missing required names space-joined in the order they appear in
`Required`; a non-empty missing-optional list yields exactly one warning
"missing optional cgroups: ..."; an empty missing list yields the empty
collection for its tier. -/
theorem C2_aggregated_messages (spec : SysSpec) (src : StatusSource)
    (subsystems : List String)
    (h : getCgroupSubsystems src = GoResult.ok (Except.ok subsystems)) :
    Validate spec src = GoResult.ok
      ((if spec.cgroupSpec.optional.filter (fun c => !subsystems.contains c) = [] then []
        else ["missing optional cgroups: " ++ String.intercalate (" ")
          (spec.cgroupSpec.optional.filter (fun c => !subsystems.contains c))]),
       (if spec.cgroupSpec.required.filter (fun c => !subsystems.contains c) = [] then []
        else ["missing required cgroups: " ++ String.intercalate (" ")
          (spec.cgroupSpec.required.filter (fun c => !subsystems.contains c))]),
       spec.cgroupSpec.required.map (eventFor subsystems true) ++
         spec.cgroupSpec.optional.map (eventFor subsystems false)) := by
  unfold Validate
  rw [h]
  simp only [validateCgroupSubsystems_missing, validateCgroupSubsystems_events,
    ne_eq, List.length_eq_zero, ite_not]

/-- Concrete run of `C2_aggregated_messages` on Scenario A: one aggregated
error for the absent required name, one aggregated warning for the absent
optional name. -/
theorem C2_aggregated_messages_witness :
    Validate specA (cleanSource linesA) = GoResult.ok
      (["missing optional cgroups: blkio"], ["missing required cgroups: memory"],
        [⟨"CGROUPS_CPU", "enabled", Severity.good⟩,
         ⟨"CGROUPS_MEMORY", "missing", Severity.bad⟩,
         ⟨"CGROUPS_PIDS", "enabled", Severity.good⟩,
         ⟨"CGROUPS_BLKIO", "missing", Severity.warn⟩]) :=
  (C2_aggregated_messages specA (cleanSource linesA) ["cpu", "pids"] (by decide)).trans
    (by decide)

/-- Claim C3: each declared name processed by the checker yields exactly
one report event whose item key is "CGROUPS_" plus the upper-cased name —
status "enabled" with severity good when the name is in the enabled list,
status "missing" with severity bad for an absent required name, status
"missing" with severity warn for an absent optional name — and the absent
names are exactly the ones appended to the returned missing list, in
order. -/
theorem C3_per_name_report (cgroups subsystems : List String) (required : Bool) :
    (validateCgroupSubsystems cgroups subsystems required).2 =
      cgroups.map (fun cgroup =>
        if subsystems.contains cgroup then
          ReportEvent.mk (cgroupsConfigKey ++ stringsToUpper cgroup) ("enabled")
            Severity.good
        else if required then
          ReportEvent.mk (cgroupsConfigKey ++ stringsToUpper cgroup) ("missing")
            Severity.bad
        else
          ReportEvent.mk (cgroupsConfigKey ++ stringsToUpper cgroup) ("missing")
            Severity.warn) ∧
    (validateCgroupSubsystems cgroups subsystems required).1 =
      cgroups.filter (fun cgroup => !subsystems.contains cgroup) :=
  ⟨validateCgroupSubsystems_events cgroups subsystems required,
   validateCgroupSubsystems_missing cgroups subsystems required⟩

/-- Claim C4: when the reader fails with an error, `Validate` returns
immediately — nil warnings, one error wrapping the read failure with the
message "failed to get cgroup subsystems", and no report events. -/
theorem C4_reader_error_single (spec : SysSpec) (src : StatusSource) (e : String)
    (h : getCgroupSubsystems src = GoResult.ok (Except.error e)) :
    Validate spec src =
      GoResult.ok ([], ["failed to get cgroup subsystems: " ++ e], []) := by
  unfold Validate
  rw [h]

/-- Concrete run of `C4_reader_error_single` on a source whose open fails. -/
theorem C4_reader_error_single_witness :
    Validate ⟨⟨["cpu"], ["pids"]⟩⟩
        ⟨some ("open /proc/cgroups: no such file or directory"), [], none⟩ =
      GoResult.ok
        ([],
         ["failed to get cgroup subsystems: open /proc/cgroups: no such file or directory"],
         []) :=
  (C4_reader_error_single ⟨⟨["cpu"], ["pids"]⟩⟩
    ⟨some ("open /proc/cgroups: no such file or directory"), [], none⟩
    ("open /proc/cgroups: no such file or directory") (by decide)).trans (by decide)

/-- Claim C5 is contradicted by the code at this input: a read error that
ends the scan right after the last delivered line is reported by `s.Err()`
only after the loop, which the code never consults, so the reader returns
the partial subsystem list with a nil error instead of failing. -/
theorem C5_scan_error_swallowed :
    getCgroupSubsystems ⟨none, [("cpuset 2 3 1", none)], some ("input/output error")⟩ =
      GoResult.ok (Except.ok (["cpuset"])) := by decide

/-- Claim C6 is contradicted by the code at this input: the code evaluates
`text[0]` before any length check, so a delivered empty line makes the
program fault instead of being skipped as a line with too few fields. -/
theorem C6_empty_line_faults :
    getCgroupSubsystems (cleanSource ["#subsys_name hierarchy num_cgroups enabled",
      "cpu 1 1 1", ""]) = GoResult.panic := by decide

/-- Claim C7, as stated, is false on the code: a name declared both
required and optional produces two report events and appears in both
missing lists. -/
theorem C7_counterexample :
    Validate ⟨⟨["cpu"], ["cpu"]⟩⟩ (cleanSource ["memory 2 1 1"]) = GoResult.ok
      (["missing optional cgroups: cpu"], ["missing required cgroups: cpu"],
        [⟨"CGROUPS_CPU", "missing", Severity.bad⟩,
         ⟨"CGROUPS_CPU", "missing", Severity.warn⟩]) := by decide

/-- Claim C7 (amended to specs whose declared names are pairwise distinct
across `Required ++ Optional`): every declared name produces exactly one
report event — the event lists are precisely one event per declared name,
in order — and is classified into exactly one of present,
missing-required, missing-optional; a name in the enabled list never
appears in either missing list. -/
theorem C7_unique_classification (req opt subsystems : List String)
    (hnodup : (req ++ opt).Nodup) (name : String) (hmem : name ∈ req ++ opt) :
    ((validateCgroupSubsystems req subsystems true).2 ++
        (validateCgroupSubsystems opt subsystems false).2 =
      req.map (eventFor subsystems true) ++ opt.map (eventFor subsystems false)) ∧
    (subsystems.contains name = true →
      name ∉ (validateCgroupSubsystems req subsystems true).1 ∧
      name ∉ (validateCgroupSubsystems opt subsystems false).1) ∧
    (subsystems.contains name = false →
      ((name ∈ req → name ∈ (validateCgroupSubsystems req subsystems true).1 ∧
          name ∉ (validateCgroupSubsystems opt subsystems false).1) ∧
       (name ∈ opt → name ∈ (validateCgroupSubsystems opt subsystems false).1 ∧
          name ∉ (validateCgroupSubsystems req subsystems true).1))) := by
  have hdisj := (List.nodup_append.mp hnodup).2.2
  refine ⟨by rw [validateCgroupSubsystems_events, validateCgroupSubsystems_events], ?_, ?_⟩
  · intro hc
    have hcm : name ∈ subsystems := by simpa using hc
    simp [validateCgroupSubsystems_missing, List.mem_filter, hcm]
  · intro hc
    have hcm : name ∉ subsystems := by simpa using hc
    constructor
    · intro hreq
      have hnopt : name ∉ opt := fun hopt => hdisj hreq hopt
      simp [validateCgroupSubsystems_missing, List.mem_filter, hcm, hreq, hnopt]
    · intro hopt
      have hnreq : name ∉ req := fun hreq => hdisj hreq hopt
      simp [validateCgroupSubsystems_missing, List.mem_filter, hcm, hopt, hnreq]

/-- Concrete run of `C7_unique_classification`: with distinct declared
names, the absent required name "memory" is classified missing-required
and not missing-optional. -/
theorem C7_unique_classification_witness :
    "memory" ∈ (validateCgroupSubsystems ["cpu", "memory"] ["cpu"] true).1 ∧
    "memory" ∉ (validateCgroupSubsystems ["pids"] ["cpu"] false).1 :=
  ((C7_unique_classification ["cpu", "memory"] ["pids"] ["cpu"] (by decide)
      ("memory") (by decide)).2.2 (by decide)).1 (by decide)

/-- Claim C8: for a spec whose `Required` and `Optional` are both empty and
any readable source, `Validate` returns nil warnings, nil errors, and
emits no report events. -/
theorem C8_empty_spec_nil (spec : SysSpec) (src : StatusSource)
    (subsystems : List String)
    (hreq : spec.cgroupSpec.required = []) (hopt : spec.cgroupSpec.optional = [])
    (h : getCgroupSubsystems src = GoResult.ok (Except.ok subsystems)) :
    Validate spec src = GoResult.ok ([], [], []) := by
  unfold Validate
  rw [h]
  simp [hreq, hopt, validateCgroupSubsystems]

/-- Concrete run of `C8_empty_spec_nil` on an empty spec and a readable
source. -/
theorem C8_empty_spec_nil_witness :
    Validate ⟨⟨[], []⟩⟩ (cleanSource ["cpu 1 1 1"]) = GoResult.ok ([], [], []) :=
  C8_empty_spec_nil ⟨⟨[], []⟩⟩ (cleanSource ["cpu 1 1 1"]) ["cpu"] rfl rfl (by decide)

/-- Claim C9: validation is deterministic — two calls with the same spec
and the same status-source behaviour produce identical warnings, errors
and report-event sequences. In this embedding every input `Validate` reads
is explicit in its arguments, so equal inputs give equal runs. -/
theorem C9_deterministic (spec1 spec2 : SysSpec) (src1 src2 : StatusSource)
    (hspec : spec1 = spec2) (hsrc : src1 = src2) :
    Validate spec1 src1 = Validate spec2 src2 := by
  rw [hspec, hsrc]

/-- Concrete run of `C9_deterministic` on Scenario A. -/
theorem C9_deterministic_witness :
    Validate specA (cleanSource linesA) = Validate specA (cleanSource linesA) :=
  C9_deterministic specA specA (cleanSource linesA) (cleanSource linesA) rfl rfl

/-- Claim C10: membership in the enabled list is decided by case-sensitive
exact string equality — a declared name absent from the enabled list is
classified missing even when it differs from an enabled name only in
letter case, while its report key is still the upper-cased transform of
the name. -/
theorem C10_case_sensitive_membership (cgroup s : String)
    (subsystems : List String) (required : Bool) (hs : s ∈ subsystems)
    (hcase : stringsToUpper cgroup = stringsToUpper s)
    (habs : subsystems.contains cgroup = false) :
    (validateCgroupSubsystems [cgroup] subsystems required).1 = [cgroup] ∧
    (validateCgroupSubsystems [cgroup] subsystems required).2 =
      [ReportEvent.mk (cgroupsConfigKey ++ stringsToUpper cgroup) ("missing")
        (if required then Severity.bad else Severity.warn)] := by
  have habsm : cgroup ∉ subsystems := by simpa using habs
  constructor
  · simp [validateCgroupSubsystems, habsm]
  · cases required <;> simp [validateCgroupSubsystems, habsm]

/-- Concrete run of `C10_case_sensitive_membership`: "CPU" is missing even
though "cpu" is enabled, and its report key is "CGROUPS_CPU". -/
theorem C10_case_sensitive_membership_witness :
    (validateCgroupSubsystems ["CPU"] ["cpu"] true).1 = ["CPU"] ∧
    (validateCgroupSubsystems ["CPU"] ["cpu"] true).2 =
      [ReportEvent.mk ("CGROUPS_CPU") ("missing") Severity.bad] := by
  have h := C10_case_sensitive_membership ("CPU") ("cpu") ["cpu"] true
    (by decide) (by decide) (by decide)
  exact ⟨h.1, h.2.trans (by decide)⟩

end CgroupValidator
